import Mathlib

/-!
# BLE motion detection: packet decoding and motion classification

A shallow embedding of `ble_motion_detection.py`.

Modelling conventions:
* A raw packet (Python `bytes`) is a `List ℕ`; a genuine byte buffer satisfies
  `∀ b ∈ p, b < 256`.
* Python's `packet.hex()` is modelled as a list of hex-digit values (`0..15`),
  two digits per byte, high nibble first; `int(s, 16)` is a base-16 fold.
* `np.var` over a list of integers is modelled exactly over `ℚ`
  (population variance, dividing by the length); `np.var([])` returns the
  IEEE NaN (with a `RuntimeWarning`, no exception), and `NaN > 50` is `False`,
  so the empty case is represented by `none` and the comparison against the
  threshold treats `none` as not-greater.
* Python `None` results become `Option.none`; the decoded dictionaries become
  structures with the same field names.
-/

namespace BLEMotion

/-- `packet.hex()`: every byte contributes two hex digits, high nibble first.
Faithful to `bytes.hex()` for inputs with all entries `< 256`; defined on all
of `List ℕ` by the same nibble formula. -/
def bytesHex (p : List ℕ) : List ℕ :=
  p.flatMap (fun b => [b / 16, b % 16])

/-- `int(s, 16)` on a hex-digit string: base-16 left fold. -/
def hexVal (s : List ℕ) : ℕ :=
  s.foldl (fun acc d => 16 * acc + d) 0

/-- The signed reinterpretation in `parse_accelerometer_data`:
`if x > 32767: x -= 65536`. -/
def toSigned16 (n : ℕ) : ℤ :=
  if n > 32767 then (n : ℤ) - 65536 else (n : ℤ)

/-- The dictionary `{"x": x, "y": y, "z": z}` returned by
`parse_accelerometer_data`. -/
structure AccelSample where
  x : ℤ
  y : ℤ
  z : ℤ
deriving DecidableEq

/-- `parse_accelerometer_data(packet)`: hex-encode the packet, require at
least 38 hex characters (the too-short `ValueError` is caught and turned into
`None`), read the three 4-hex-character fields at character offsets 26, 30, 34
as base-16 integers and reinterpret each as a signed 16-bit value. -/
def parse_accelerometer_data (packet : List ℕ) : Option AccelSample :=
  let hex_packet := bytesHex packet
  if hex_packet.length < 38 then
    none
  else
    let x := hexVal ((hex_packet.drop 26).take 4)
    let y := hexVal ((hex_packet.drop 30).take 4)
    let z := hexVal ((hex_packet.drop 34).take 4)
    some { x := toSigned16 x, y := toSigned16 y, z := toSigned16 z }

/-- `MOTION_THRESHOLD = 50`. -/
def MOTION_THRESHOLD : ℕ := 50

/-- `np.var(l)` for a list of Python ints: the population variance computed
exactly over `ℚ`; `none` models the NaN returned on the empty list. -/
def np_var (l : List ℤ) : Option ℚ :=
  if l.length = 0 then
    none
  else
    let n : ℚ := l.length
    let mean : ℚ := (l.map (fun v => (v : ℚ))).sum / n
    some ((l.map (fun v => ((v : ℚ) - mean) ^ 2)).sum / n)

/-- `detect_motion(accel_data)` on the list `list(accel_data.values())`:
`"Moving" if variance > MOTION_THRESHOLD else "Stationary"`.  On the empty
list `np.var` yields NaN and `NaN > 50` is `False`, so the result is
`"Stationary"`; `np.var` raises no exception on a list of ints, so the
`except`-branch result `"Error"` is unreachable from list inputs. -/
def detect_motion (accel_data : List ℤ) : String :=
  match np_var accel_data with
  | some variance => if variance > (MOTION_THRESHOLD : ℚ) then "Moving" else "Stationary"
  | none => "Stationary"

/-- The dictionary `{"uuid": ..., "major": ..., "minor": ...}` returned by
`parse_ibeacon_data`; `uuid` is the hex-character slice, `major`/`minor` are
`None` when their hex slice is empty (the Python conditional expression). -/
structure IBeaconRecord where
  uuid : List ℕ
  major : Option ℕ
  minor : Option ℕ
deriving DecidableEq

/-- `parse_ibeacon_data(packet)`: hex-encode the packet, require at least 56
hex characters (else `None`), take hex characters 16..47 verbatim as the UUID,
and parse hex characters 48..51 / 52..55 as `major` / `minor`, each guarded by
the slice being non-empty (truthy). -/
def parse_ibeacon_data (packet : List ℕ) : Option IBeaconRecord :=
  let hex_packet := bytesHex packet
  if hex_packet.length < 56 then
    none
  else
    let uuid := (hex_packet.drop 16).take 32
    let majorSlice := (hex_packet.drop 48).take 4
    let minorSlice := (hex_packet.drop 52).take 4
    let major := if majorSlice ≠ [] then some (hexVal majorSlice) else none
    let minor := if minorSlice ≠ [] then some (hexVal minorSlice) else none
    some { uuid := uuid, major := major, minor := minor }

/-- Outcome of processing one manufacturer-data payload in the
`scan_and_detect` loop. -/
inductive PacketResult where
  | motion (sample : AccelSample) (status : String)
  | beacon (record : IBeaconRecord)
  | unrecognized
deriving DecidableEq

/-- The per-packet body of the `scan_and_detect` loop, instrumented with a
flag recording whether `parse_ibeacon_data` was invoked: accelerometer decode
is attempted first; only when it returns `None` (falsy) is the iBeacon decoder
called.  A successfully decoded accelerometer dict is always truthy (it has
three keys), as is a decoded iBeacon dict. -/
def process_packet (p : List ℕ) : PacketResult × Bool :=
  match parse_accelerometer_data p with
  | some accel_data =>
      (PacketResult.motion accel_data (detect_motion [accel_data.x, accel_data.y, accel_data.z]), false)
  | none =>
      match parse_ibeacon_data p with
      | some ibeacon_data => (PacketResult.beacon ibeacon_data, true)
      | none => (PacketResult.unrecognized, true)

/-! ## Spec-side byte-slice decoders (refinement targets for C10)

Modelled from the spec (§9): direct byte-slice indexing with named offset
constants per field, avoiding the hex-string intermediate representation. -/

/-- Byte offset of the accelerometer X field (spec: bytes 13–14). -/
def ACCEL_X_OFFSET : ℕ := 13
/-- Byte offset of the accelerometer Y field (spec: bytes 15–16). -/
def ACCEL_Y_OFFSET : ℕ := 15
/-- Byte offset of the accelerometer Z field (spec: bytes 17–18). -/
def ACCEL_Z_OFFSET : ℕ := 17
/-- Byte offset of the iBeacon identifier (spec: bytes 8..23). -/
def IBEACON_UUID_OFFSET : ℕ := 8
/-- Byte offset of the iBeacon major field (spec: bytes 24–25). -/
def IBEACON_MAJOR_OFFSET : ℕ := 24
/-- Byte offset of the iBeacon minor field (spec: bytes 26–27). -/
def IBEACON_MINOR_OFFSET : ℕ := 26

/-- Unsigned 16-bit big-endian integer formed by the two bytes at offsets
`i` and `i+1` (out-of-range reads default to 0; the decoders only use it
in-bounds). -/
def u16beAt (p : List ℕ) (i : ℕ) : ℕ :=
  256 * p.getD i 0 + p.getD (i + 1) 0

/-- Modelled from the spec: accelerometer decoding by direct byte-slice
indexing (named byte offsets, length guard in raw bytes). -/
def decode_accelerometer_bytes (p : List ℕ) : Option AccelSample :=
  if p.length < 19 then none
  else some
    { x := toSigned16 (u16beAt p ACCEL_X_OFFSET)
      y := toSigned16 (u16beAt p ACCEL_Y_OFFSET)
      z := toSigned16 (u16beAt p ACCEL_Z_OFFSET) }

/-- The spec-side iBeacon record: identifier kept as the 16 raw bytes,
major/minor non-nullable. -/
structure IBeaconBytesRecord where
  ident : List ℕ
  major : ℕ
  minor : ℕ
deriving DecidableEq

/-- Modelled from the spec: iBeacon decoding by direct byte-slice indexing
(named byte offsets, length guard in raw bytes, non-nullable major/minor). -/
def decode_ibeacon_bytes (p : List ℕ) : Option IBeaconBytesRecord :=
  if p.length < 28 then none
  else some
    { ident := (p.drop IBEACON_UUID_OFFSET).take 16
      major := u16beAt p IBEACON_MAJOR_OFFSET
      minor := u16beAt p IBEACON_MINOR_OFFSET }

/-- Reading a spec-side byte record back in the hex-string representation of
the source: identifier hex-encoded, major/minor wrapped as present. -/
def ibeaconRecordOfBytes (r : IBeaconBytesRecord) : IBeaconRecord :=
  { uuid := bytesHex r.ident, major := some r.major, minor := some r.minor }

/-! ## Helper lemmas about hex encoding -/

@[simp] theorem bytesHex_nil : bytesHex [] = [] := rfl

@[simp] theorem bytesHex_cons (b : ℕ) (p : List ℕ) :
    bytesHex (b :: p) = b / 16 :: b % 16 :: bytesHex p := rfl

@[simp] theorem bytesHex_length (p : List ℕ) :
    (bytesHex p).length = 2 * p.length := by
  induction p with
  | nil => rfl
  | cons b t ih => simp [ih]; omega

theorem bytesHex_drop (k : ℕ) (p : List ℕ) :
    (bytesHex p).drop (2 * k) = bytesHex (p.drop k) := by
  induction k generalizing p with
  | zero => simp
  | succ k ih =>
    cases p with
    | nil => simp
    | cons b t =>
      have h2 : 2 * (k + 1) = (2 * k) + 1 + 1 := by omega
      simp [h2, List.drop_succ_cons, ih]

theorem bytesHex_take (k : ℕ) (p : List ℕ) :
    (bytesHex p).take (2 * k) = bytesHex (p.take k) := by
  induction k generalizing p with
  | zero => simp
  | succ k ih =>
    cases p with
    | nil => simp
    | cons b t =>
      have h2 : 2 * (k + 1) = (2 * k) + 1 + 1 := by omega
      simp [h2, ih]

theorem take_two_drop (p : List ℕ) (k : ℕ) (h : k + 2 ≤ p.length) :
    (p.drop k).take 2 = [p.getD k 0, p.getD (k + 1) 0] := by
  induction p generalizing k with
  | nil => simp at h
  | cons a t ih =>
    cases k with
    | zero =>
      cases t with
      | nil => simp at h
      | cons b t2 => simp
    | succ k =>
      simp only [List.drop_succ_cons, List.getD_cons_succ]
      exact ih k (by simpa using h)

theorem hexVal_pair (a b : ℕ) : hexVal (bytesHex [a, b]) = 256 * a + b := by
  show 16 * (16 * (16 * (16 * 0 + a / 16) + a % 16) + b / 16) + b % 16 = 256 * a + b
  omega

/-- The 4-hex-character field starting at character offset `2 * k` is the
big-endian 16-bit value of bytes `k` and `k + 1`. -/
theorem hexVal_field (p : List ℕ) (k : ℕ) (h : k + 2 ≤ p.length) :
    hexVal (((bytesHex p).drop (2 * k)).take 4) = 256 * p.getD k 0 + p.getD (k + 1) 0 := by
  rw [bytesHex_drop, show (4 : ℕ) = 2 * 2 from rfl, bytesHex_take,
    take_two_drop p k h]
  exact hexVal_pair _ _

/-! ## Characterization of the decoders -/

theorem parse_accel_short (p : List ℕ) (h : p.length < 19) :
    parse_accelerometer_data p = none := by
  unfold parse_accelerometer_data
  rw [if_pos]
  simp only [bytesHex_length]
  omega

theorem parse_accel_of_length (p : List ℕ) (h : 19 ≤ p.length) :
    parse_accelerometer_data p = some
      { x := toSigned16 (256 * p.getD 13 0 + p.getD 14 0)
        y := toSigned16 (256 * p.getD 15 0 + p.getD 16 0)
        z := toSigned16 (256 * p.getD 17 0 + p.getD 18 0) } := by
  unfold parse_accelerometer_data
  rw [if_neg (by simp only [bytesHex_length]; omega)]
  rw [show (26 : ℕ) = 2 * 13 from rfl, hexVal_field p 13 (by omega),
    show (30 : ℕ) = 2 * 15 from rfl, hexVal_field p 15 (by omega),
    show (34 : ℕ) = 2 * 17 from rfl, hexVal_field p 17 (by omega)]

theorem parse_ibeacon_short (p : List ℕ) (h : p.length < 28) :
    parse_ibeacon_data p = none := by
  unfold parse_ibeacon_data
  rw [if_pos]
  simp only [bytesHex_length]
  omega

theorem parse_ibeacon_of_length (p : List ℕ) (h : 28 ≤ p.length) :
    parse_ibeacon_data p = some
      { uuid := bytesHex ((p.drop 8).take 16)
        major := some (256 * p.getD 24 0 + p.getD 25 0)
        minor := some (256 * p.getD 26 0 + p.getD 27 0) } := by
  unfold parse_ibeacon_data
  rw [if_neg (by simp only [bytesHex_length]; omega)]
  dsimp only
  have hmaj : ((bytesHex p).drop 48).take 4 ≠ [] := by
    have : (((bytesHex p).drop 48).take 4).length = 4 := by
      simp only [List.length_take, List.length_drop, bytesHex_length]
      omega
    intro hnil
    rw [hnil] at this
    simp at this
  have hmin : ((bytesHex p).drop 52).take 4 ≠ [] := by
    have : (((bytesHex p).drop 52).take 4).length = 4 := by
      simp only [List.length_take, List.length_drop, bytesHex_length]
      omega
    intro hnil
    rw [hnil] at this
    simp at this
  rw [if_pos hmaj, if_pos hmin]
  rw [show (48 : ℕ) = 2 * 24 from rfl, hexVal_field p 24 (by omega),
    show (52 : ℕ) = 2 * 26 from rfl, hexVal_field p 26 (by omega)]
  rw [show (16 : ℕ) = 2 * 8 from rfl, bytesHex_drop,
    show (32 : ℕ) = 2 * 16 from rfl, bytesHex_take]

/-! ## Claims -/

/-- A sample 19-byte packet whose bytes at offsets 13–18 are
`00 32 FF CE 00 00` (the worked example of the spec). -/
def samplePacket19 : List ℕ :=
  [0, 0, 0, 0, 0, 0, 0, 0, 0, 0, 0, 0, 0, 0x00, 0x32, 0xFF, 0xCE, 0x00, 0x00]

/-- Claim C1: for every packet of at least 19 bytes, `parse_accelerometer_data`
returns a sample whose `x`, `y`, `z` are the 2-byte big-endian fields at byte
offsets 13–14, 15–16, 17–18, each read as an unsigned 16-bit integer and
reinterpreted as signed 16-bit two's-complement: raw values `< 32768` pass
through unchanged, raw values `≥ 32768` have 65536 subtracted, and in
particular `0x7FFF ↦ 32767` and `0x8000 ↦ -32768`. -/
theorem claim1_accel_decode_fields (p : List ℕ) (h : 19 ≤ p.length) :
    parse_accelerometer_data p = some
      { x := toSigned16 (256 * p.getD 13 0 + p.getD 14 0)
        y := toSigned16 (256 * p.getD 15 0 + p.getD 16 0)
        z := toSigned16 (256 * p.getD 17 0 + p.getD 18 0) } ∧
    (∀ n : ℕ, n < 32768 → toSigned16 n = (n : ℤ)) ∧
    (∀ n : ℕ, 32768 ≤ n → toSigned16 n = (n : ℤ) - 65536) ∧
    toSigned16 0x7FFF = 32767 ∧ toSigned16 0x8000 = -32768 := by
  refine ⟨parse_accel_of_length p h, ?_, ?_, by decide, by decide⟩
  · intro n hn
    unfold toSigned16
    rw [if_neg (by omega)]
  · intro n hn
    unfold toSigned16
    rw [if_pos (by omega)]

/-- Witness for C1: the spec's worked example decodes to
`x = 50`, `y = -50`, `z = 0`. -/
theorem claim1_accel_decode_fields_witness :
    parse_accelerometer_data samplePacket19 = some { x := 50, y := -50, z := 0 } := by
  rw [(claim1_accel_decode_fields samplePacket19 (by decide)).1]
  decide

/-- Claim C3: every packet shorter than 19 bytes decodes to `none`, and the
boundary is inclusive: a 19-byte (or longer) packet passes the length check
and yields a sample. -/
theorem claim3_accel_length_guard (p : List ℕ) :
    (p.length < 19 → parse_accelerometer_data p = none) ∧
    (19 ≤ p.length → (parse_accelerometer_data p).isSome = true) := by
  refine ⟨parse_accel_short p, fun h => ?_⟩
  rw [parse_accel_of_length p h]
  rfl

/-- Witness for C3: an 18-byte packet decodes to `none`; a 19-byte packet
decodes to a sample. -/
theorem claim3_accel_length_guard_witness :
    parse_accelerometer_data (List.replicate 18 0) = none ∧
    (parse_accelerometer_data (List.replicate 19 0)).isSome = true :=
  ⟨(claim3_accel_length_guard (List.replicate 18 0)).1 (by decide),
   (claim3_accel_length_guard (List.replicate 19 0)).2 (by decide)⟩

/-- Claim C4: for every packet of at least 28 bytes, `parse_ibeacon_data`
returns a record whose identifier is the 32-hex-character encoding of the 16
raw bytes at offsets 8..23 taken verbatim, whose `major` is the unsigned
16-bit big-endian integer at byte offsets 24–25, and whose `minor` is the
unsigned 16-bit big-endian integer at byte offsets 26–27. -/
theorem claim4_ibeacon_decode_fields (p : List ℕ) (h : 28 ≤ p.length) :
    parse_ibeacon_data p = some
      { uuid := bytesHex ((p.drop 8).take 16)
        major := some (256 * p.getD 24 0 + p.getD 25 0)
        minor := some (256 * p.getD 26 0 + p.getD 27 0) } ∧
    (bytesHex ((p.drop 8).take 16)).length = 32 := by
  refine ⟨parse_ibeacon_of_length p h, ?_⟩
  simp only [bytesHex_length, List.length_take, List.length_drop]
  omega

/-- Witness for C4: the 28-byte packet `[0, 1, ..., 27]` decodes with
identifier = hex of bytes 8..23, `major = 0x1819`, `minor = 0x1A1B`. -/
theorem claim4_ibeacon_decode_fields_witness :
    parse_ibeacon_data (List.range 28) = some
      { uuid := bytesHex (((List.range 28).drop 8).take 16)
        major := some (256 * 24 + 25)
        minor := some (256 * 26 + 27) } := by
  rw [(claim4_ibeacon_decode_fields (List.range 28) (by decide)).1]
  decide

/-- Claim C5: every packet shorter than 28 bytes (56 hex characters) makes
`parse_ibeacon_data` return `none`. -/
theorem claim5_ibeacon_length_guard (p : List ℕ) (h : p.length < 28) :
    parse_ibeacon_data p = none :=
  parse_ibeacon_short p h

/-- Witness for C5: a 27-byte packet decodes to `none`. -/
theorem claim5_ibeacon_length_guard_witness :
    parse_ibeacon_data (List.replicate 27 0) = none :=
  claim5_ibeacon_length_guard (List.replicate 27 0) (by decide)

/-- `detect_motion` on a three-element list, expressed through the population
variance written with mean `(x + y + z) / 3`. -/
theorem detect_motion_three (x y z : ℤ) :
    detect_motion [x, y, z] =
      if 50 < (((x : ℚ) - ((x : ℚ) + (y : ℚ) + (z : ℚ)) / 3) ^ 2 +
               ((y : ℚ) - ((x : ℚ) + (y : ℚ) + (z : ℚ)) / 3) ^ 2 +
               ((z : ℚ) - ((x : ℚ) + (y : ℚ) + (z : ℚ)) / 3) ^ 2) / 3
      then "Moving" else "Stationary" := by
  unfold detect_motion np_var
  simp only [List.length_cons, List.length_nil, List.map_cons, List.map_nil,
    List.sum_cons, List.sum_nil, MOTION_THRESHOLD]
  norm_num
  apply if_congr _ rfl rfl
  constructor <;> intro h <;> (ring_nf at h ⊢; exact h)

/-- Claim C2: `detect_motion` on `{x, y, z}` computes the population variance
(mean `(x + y + z) / 3`, variance the mean of squared deviations, dividing
by 3) and returns `"Moving"` exactly when that variance is strictly greater
than 50, otherwise `"Stationary"`; a variance of exactly 50 yields
`"Stationary"`; in particular `{0, 0, 0}` and `{5, 5, 6}` are `"Stationary"`
and `{10, -10, 0}` is `"Moving"`. -/
theorem claim2_motion_variance_threshold :
    (∀ x y z : ℤ,
      detect_motion [x, y, z] =
        if 50 < (((x : ℚ) - ((x : ℚ) + (y : ℚ) + (z : ℚ)) / 3) ^ 2 +
                 ((y : ℚ) - ((x : ℚ) + (y : ℚ) + (z : ℚ)) / 3) ^ 2 +
                 ((z : ℚ) - ((x : ℚ) + (y : ℚ) + (z : ℚ)) / 3) ^ 2) / 3
        then "Moving" else "Stationary") ∧
    (∀ x y z : ℤ,
      (((x : ℚ) - ((x : ℚ) + (y : ℚ) + (z : ℚ)) / 3) ^ 2 +
       ((y : ℚ) - ((x : ℚ) + (y : ℚ) + (z : ℚ)) / 3) ^ 2 +
       ((z : ℚ) - ((x : ℚ) + (y : ℚ) + (z : ℚ)) / 3) ^ 2) / 3 = 50 →
      detect_motion [x, y, z] = "Stationary") ∧
    detect_motion [0, 0, 0] = "Stationary" ∧
    detect_motion [10, -10, 0] = "Moving" ∧
    detect_motion [5, 5, 6] = "Stationary" := by
  refine ⟨detect_motion_three, fun x y z h => ?_, ?_, ?_, ?_⟩
  · rw [detect_motion_three x y z, h]
    norm_num
  · simp [detect_motion, np_var, MOTION_THRESHOLD]
  · simp [detect_motion, np_var, MOTION_THRESHOLD]
    norm_num
  · simp [detect_motion, np_var, MOTION_THRESHOLD]
    norm_num

/-- Witness for C2: the sample `{15, 0, 0}` has variance exactly 50
(mean 5, squared deviations 100, 25, 25) and is classified `"Stationary"`. -/
theorem claim2_motion_variance_threshold_witness :
    detect_motion [15, 0, 0] = "Stationary" :=
  claim2_motion_variance_threshold.2.1 15 0 0 (by norm_num)

/-- Counterexample to C6: on the empty container `detect_motion` returns
`"Stationary"` — `np.var([])` yields NaN (a `RuntimeWarning`, not an
exception), and `NaN > 50` is `False` — so the fault does not map to the
`"Error"` label as the claim states. -/
theorem claim6_counterexample :
    detect_motion ([] : List ℤ) = "Stationary" ∧ "Stationary" ≠ "Error" := by
  exact ⟨rfl, by decide⟩

/-- Claim C6 (amended): `detect_motion` never fails on integer-list input:
for three integers it returns `"Moving"` or `"Stationary"`, and the empty
container also yields `"Stationary"` (not `"Error"`: `np.var` raises nothing
on a list, so the `except`-branch is not taken); every result lies in
{`"Moving"`, `"Stationary"`, `"Error"`}. -/
theorem claim6_classifier_no_crash :
    (∀ l : List ℤ, detect_motion l = "Moving" ∨ detect_motion l = "Stationary") ∧
    detect_motion ([] : List ℤ) = "Stationary" ∧
    (∀ l : List ℤ, detect_motion l = "Moving" ∨ detect_motion l = "Stationary" ∨
      detect_motion l = "Error") := by
  have htotal : ∀ l : List ℤ, detect_motion l = "Moving" ∨ detect_motion l = "Stationary" := by
    intro l
    unfold detect_motion
    cases np_var l with
    | none => exact Or.inr rfl
    | some v =>
      by_cases hv : v > (MOTION_THRESHOLD : ℚ)
      · exact Or.inl (if_pos hv)
      · exact Or.inr (if_neg hv)
  exact ⟨htotal, rfl, fun l => (htotal l).imp id Or.inl⟩

/-- Claim C7: both decoders are total on arbitrary byte buffers: each yields
either `none` or a fully populated result (for the iBeacon record this
includes `major` and `minor` being present), and the zero-length buffer
yields `none` from both. -/
theorem claim7_decoders_total (p : List ℕ) :
    (parse_accelerometer_data p = none ∨ ∃ s, parse_accelerometer_data p = some s) ∧
    (parse_ibeacon_data p = none ∨
      ∃ r, parse_ibeacon_data p = some r ∧ r.major.isSome = true ∧ r.minor.isSome = true) ∧
    parse_accelerometer_data ([] : List ℕ) = none ∧
    parse_ibeacon_data ([] : List ℕ) = none := by
  refine ⟨?_, ?_, parse_accel_short [] (by decide), parse_ibeacon_short [] (by decide)⟩
  · by_cases h : p.length < 19
    · exact Or.inl (parse_accel_short p h)
    · exact Or.inr ⟨_, parse_accel_of_length p (by omega)⟩
  · by_cases h : p.length < 28
    · exact Or.inl (parse_ibeacon_short p h)
    · exact Or.inr ⟨_, parse_ibeacon_of_length p (by omega), rfl, rfl⟩

/-- Claim C8: the dispatch attempts accelerometer decode first; when it
succeeds the sample goes to the motion classifier and the iBeacon decoder is
never invoked (invocation flag `false`); the flag is `true` exactly when
accelerometer decode returned `none`; and no packet is ever classified as
both a motion sample and a beacon. -/
theorem claim8_dispatch_order (p : List ℕ) :
    (∀ s, parse_accelerometer_data p = some s →
      process_packet p =
        (PacketResult.motion s (detect_motion [s.x, s.y, s.z]), false)) ∧
    ((process_packet p).2 = true ↔ parse_accelerometer_data p = none) ∧
    (∀ s st r, ¬((process_packet p).1 = PacketResult.motion s st ∧
                 (process_packet p).1 = PacketResult.beacon r)) := by
  unfold process_packet
  cases h : parse_accelerometer_data p with
  | some s0 =>
    refine ⟨fun s hs => ?_, by simp, fun s st r hc => ?_⟩
    · cases hs
      rfl
    · exact absurd (hc.1.symm.trans hc.2) (by simp)
  | none =>
    refine ⟨fun s hs => by simp at hs, ?_, fun s st r hc => ?_⟩
    · cases parse_ibeacon_data p <;> simp
    · exact absurd (hc.1.symm.trans hc.2) (by simp)

/-- Witness for C8: on the sample accelerometer packet, the dispatch
classifies motion (`"Moving"`) and the iBeacon decoder is not invoked. -/
theorem claim8_dispatch_order_witness :
    process_packet samplePacket19 =
      (PacketResult.motion { x := 50, y := -50, z := 0 } "Moving", false) := by
  rw [(claim8_dispatch_order samplePacket19).1 { x := 50, y := -50, z := 0 } (by decide)]
  have hm : detect_motion [(50 : ℤ), -50, 0] = "Moving" := by
    simp [detect_motion, np_var, MOTION_THRESHOLD]
    norm_num
  rw [hm]

/-- Claim C9: once the iBeacon length guard passes (at least 28 bytes), the
`major` and `minor` fields of the returned record are always present — the
conditional-nullability branches are dead once the guard succeeds. -/
theorem claim9_major_minor_present (p : List ℕ) (h : 28 ≤ p.length) :
    ∀ r, parse_ibeacon_data p = some r →
      (∃ m, r.major = some m) ∧ (∃ n, r.minor = some n) := by
  intro r hr
  rw [parse_ibeacon_of_length p h] at hr
  cases hr
  exact ⟨⟨_, rfl⟩, ⟨_, rfl⟩⟩

/-- Witness for C9: a 28-byte packet of `0x01` bytes decodes to a record with
`major = minor = 0x0101 = 257`, both present. -/
theorem claim9_major_minor_present_witness :
    ∃ r, parse_ibeacon_data (List.replicate 28 1) = some r ∧
      (∃ m, r.major = some m) ∧ (∃ n, r.minor = some n) := by
  refine ⟨{ uuid := bytesHex (List.replicate 16 1), major := some 257, minor := some 257 },
    by decide, ?_⟩
  exact claim9_major_minor_present (List.replicate 28 1) (by decide) _ (by decide)

/-- Claim C10: the hex-string decoding is equivalent to direct byte-slice
decoding — `packet.hex()` has twice the packet's length, hex-character range
`[2k, 2m)` reads exactly raw bytes `k..m-1`, the hex-length guards `≥ 38` /
`≥ 56` hold exactly for `≥ 19` / `≥ 28` raw bytes, and the spec's byte-slice
reimplementations with named offsets produce identical results to the
hex-string decoders on every input. -/
theorem claim10_hex_byte_refinement (p : List ℕ) :
    (bytesHex p).length = 2 * p.length ∧
    (∀ k m : ℕ,
      ((bytesHex p).drop (2 * k)).take (2 * (m - k)) = bytesHex ((p.drop k).take (m - k))) ∧
    (38 ≤ (bytesHex p).length ↔ 19 ≤ p.length) ∧
    (56 ≤ (bytesHex p).length ↔ 28 ≤ p.length) ∧
    parse_accelerometer_data p = decode_accelerometer_bytes p ∧
    parse_ibeacon_data p = Option.map ibeaconRecordOfBytes (decode_ibeacon_bytes p) := by
  refine ⟨bytesHex_length p, fun k m => ?_, ?_, ?_, ?_, ?_⟩
  · rw [bytesHex_drop, bytesHex_take]
  · simp only [bytesHex_length]
    omega
  · simp only [bytesHex_length]
    omega
  · by_cases h : p.length < 19
    · rw [parse_accel_short p h]
      unfold decode_accelerometer_bytes
      rw [if_pos h]
    · rw [parse_accel_of_length p (by omega)]
      unfold decode_accelerometer_bytes u16beAt ACCEL_X_OFFSET ACCEL_Y_OFFSET ACCEL_Z_OFFSET
      rw [if_neg h]
  · by_cases h : p.length < 28
    · rw [parse_ibeacon_short p h]
      unfold decode_ibeacon_bytes
      rw [if_pos h]
      rfl
    · rw [parse_ibeacon_of_length p (by omega)]
      unfold decode_ibeacon_bytes ibeaconRecordOfBytes u16beAt IBEACON_UUID_OFFSET
        IBEACON_MAJOR_OFFSET IBEACON_MINOR_OFFSET
      rw [if_neg h]
      rfl

end BLEMotion
